import Mathlib

/-!
Verification of the callie-integrations workflow execution engine.

This file is a shallow embedding of the engine sources:

  * `src/callie/engine/workflow_engine.py` (WorkflowEngine, WorkflowExecutionContext)
  * `src/callie/engine/transforms.py`      (FieldTransformer)
  * `src/callie/models/stages.py`          (StageConfig, StageResult, WorkflowConfig,
                                            WorkflowExecution, StageType, StageErrorStrategy)

Modelling conventions:

  * Python values flowing through a workflow (JSON-shaped configuration values,
    connector payloads, context variables) are modelled by the inductive type
    `Value` (null / int / str / list / dict).  Booleans and floats do not occur
    in any of the engine paths treated here.
  * Python dictionaries are modelled as ordered association lists with string
    keys (`Dict`), matching Python 3.7+ insertion-order semantics; JSON object
    keys are strings.  `dinsert` overwrites an existing key in place (Python
    keeps the original position of an overwritten key).
  * Python `dict.get(k)` returns `None` both when the key is absent and when it
    is stored with value `None`; `pyget` reproduces exactly that conflation,
    while `dlookup` (used to model `dict.get(k, default)`) distinguishes a
    missing key from a stored null.
  * Exceptions are modelled with `Except String`; the carried string is the
    exception message.
  * Wall-clock timestamps are not representable; `completed_at` fields are
    modelled as a `Bool` recording whether the timestamp was assigned.
  * The recursive retry in `WorkflowEngine._execute_stage` is modelled with
    explicit fuel; a result of `none` means the recursion did not terminate
    within the given fuel.
-/

/-- JSON-shaped Python value (`None` / `int` / `str` / `list` / `dict`). -/
inductive Value where
  | null : Value
  | int (n : Int) : Value
  | str (s : String) : Value
  | list (xs : List Value) : Value
  | dict (kvs : List (String × Value)) : Value

mutual

/-- Structural equality on values; coincides with Python `==` on this domain. -/
def Value.beq : Value → Value → Bool
  | .null, .null => true
  | .int a, .int b => a == b
  | .str a, .str b => a == b
  | .list xs, .list ys => Value.beqList xs ys
  | .dict xs, .dict ys => Value.beqPairs xs ys
  | _, _ => false

def Value.beqList : List Value → List Value → Bool
  | [], [] => true
  | a :: as, b :: bs => Value.beq a b && Value.beqList as bs
  | _, _ => false

def Value.beqPairs : List (String × Value) → List (String × Value) → Bool
  | [], [] => true
  | (k, v) :: as, (k', v') :: bs => k == k' && Value.beq v v' && Value.beqPairs as bs
  | _, _ => false

end

instance : BEq Value := ⟨Value.beq⟩

mutual

theorem Value.beq_iff : ∀ a b : Value, Value.beq a b = true ↔ a = b
  | .null, b => by cases b <;> simp [Value.beq]
  | .int a, b => by cases b <;> simp [Value.beq]
  | .str a, b => by cases b <;> simp [Value.beq]
  | .list xs, b => by
      cases b <;> simp [Value.beq]
      exact Value.beqList_iff xs _
  | .dict xs, b => by
      cases b <;> simp [Value.beq]
      exact Value.beqPairs_iff xs _

theorem Value.beqList_iff : ∀ xs ys : List Value, Value.beqList xs ys = true ↔ xs = ys
  | [], ys => by cases ys <;> simp [Value.beqList]
  | x :: xs, ys => by
      cases ys with
      | nil => simp [Value.beqList]
      | cons y ys =>
          simp [Value.beqList, Value.beq_iff x y, Value.beqList_iff xs ys]

theorem Value.beqPairs_iff : ∀ xs ys : List (String × Value),
    Value.beqPairs xs ys = true ↔ xs = ys
  | [], ys => by cases ys <;> simp [Value.beqPairs]
  | (k, v) :: xs, ys => by
      cases ys with
      | nil => simp [Value.beqPairs]
      | cons y ys =>
          obtain ⟨k', v'⟩ := y
          simp [Value.beqPairs, Value.beq_iff v v', Value.beqPairs_iff xs ys, and_assoc]

end

instance : DecidableEq Value := fun a b =>
  decidable_of_iff (Value.beq a b = true) (Value.beq_iff a b)

instance : LawfulBEq Value where
  eq_of_beq h := (Value.beq_iff _ _).mp h
  rfl := (Value.beq_iff _ _).mpr rfl

/-- Python dictionary with string keys, as an insertion-ordered association list. -/
abbrev Dict := List (String × Value)

/-- Model of `d.get(k, default)` distinguishing a missing key (`none`) from a stored null. -/
def dlookup (d : Dict) (k : String) : Option Value :=
  match d.find? (fun p => p.1 == k) with
  | some p => some p.2
  | none => none

/-- Python `d.get(k)` — returns `None` for a missing key, conflating it with a
stored `None`. -/
def pyget (d : Dict) (k : String) : Value :=
  (dlookup d k).getD Value.null

/-- Python `d.get(k, default)`. -/
def dgetD (d : Dict) (k : String) (default : Value) : Value :=
  (dlookup d k).getD default

/-- Python `d[k] = v`: overwrite in place, preserving the key's original
position, else append. -/
def dinsert (k : String) (v : Value) : Dict → Dict
  | [] => [(k, v)]
  | (k', v') :: rest => if k' == k then (k, v) :: rest else (k', v') :: dinsert k v rest

/-- Python `k in d`. -/
def hasKey (d : Dict) (k : String) : Bool :=
  d.any (fun p => p.1 == k)

/-- Python truthiness on this value domain. -/
def pyTruthy : Value → Bool
  | .null => false
  | .int n => n != 0
  | .str s => s ≠ ""
  | .list xs => !xs.isEmpty
  | .dict d => !d.isEmpty

/-- Python hashability: lists and dicts are unhashable. -/
def hashableB : Value → Bool
  | .list _ => false
  | .dict _ => false
  | _ => true

def Value.isNull : Value → Bool
  | .null => true
  | _ => false

def Value.isList : Value → Bool
  | .list _ => true
  | _ => false

def Value.isDict : Value → Bool
  | .dict _ => true
  | _ => false

-- Basic dictionary lemmas ----------------------------------------------------

theorem hasKey_dinsert (k : String) (v : Value) (d : Dict) (k' : String) :
    hasKey (dinsert k v d) k' = (k' == k || hasKey d k') := by
  induction d with
  | nil => simp [dinsert, hasKey, List.any, BEq.comm]
  | cons p rest ih =>
      obtain ⟨pk, pv⟩ := p
      by_cases h : pk = k
      · subst h
        simp [dinsert, hasKey, List.any_cons, BEq.comm]
      · have hb : (pk == k) = false := by simp [h]
        simp only [dinsert, hb, Bool.false_eq_true, if_false, hasKey, List.any_cons]
        rw [show (List.any (dinsert k v rest) fun p => p.1 == k') = hasKey (dinsert k v rest) k'
              from rfl, ih]
        cases hpk' : (pk == k') <;> cases hk' : (k' == k) <;> simp_all [hasKey]

theorem hasKey_nil (k : String) : hasKey [] k = false := rfl

/-! ## FieldTransformer (`src/callie/engine/transforms.py`) -/

/-- One entry of the `field_mappings` list consumed by
`FieldTransformer.map_fields`.  In the source each mapping is a
`Dict[str, Any]` read with `mapping.get("source_field")` etc.; the mapping
dictionaries are modelled as records, with an absent key as `none`.
Python falsiness of the field names (`if not source_field or not
target_field`) covers both `None` and the empty string. -/
structure FieldMapping where
  source_field : Option String := none
  target_field : Option String := none
  transform : Option String := none
  required : Bool := true
deriving DecidableEq

/-- Loop body of `FieldTransformer.map_fields`: process one mapping entry
against `source_data`, updating the accumulated `target_data`.  Mirrors the
source: invalid mappings (falsy source/target field name) are skipped; a
required mapping whose source value `is None` is skipped; otherwise the
scalar transform is applied and its result written under the target field —
and if the transform raises, the exception escapes `map_fields` (the
`except` at `transforms.py:62` lives inside `apply_transform`, not here). -/
def map_fields_step (tr : Value → Option String → Except String Value) (source_data : Dict)
    (target_data : Dict) (m : FieldMapping) : Except String Dict :=
  match m.source_field, m.target_field with
  | some sf, some tf =>
      if sf = "" ∨ tf = "" then .ok target_data
      else
        let source_value := pyget source_data sf
        if m.required && source_value == Value.null then .ok target_data
        else (tr source_value m.transform).map (fun w => dinsert tf w target_data)
  | _, _ => .ok target_data

/-- Model of `FieldTransformer.map_fields(source_data, field_mappings)` as a
left-to-right loop that aborts at the first raising transform application.

`tr` abstracts `FieldTransformer.apply_transform` as a *fallible* scalar
function: the source performs IEEE-754 float arithmetic for the numeric
transforms and its `except` clause catches only
`(ValueError, TypeError, ZeroDivisionError)`, so an `OverflowError` — which
`round`/`int`/`float` raise on values such as the string `"1e400"`
(`float` parses it to infinity, which `round` cannot convert) or the integer
`10^400` (too large for a float) — escapes `apply_transform` and aborts the
whole mapping.  Float arithmetic itself is not representable here, so the
theorems below quantify over an arbitrary `tr` and depend only on which
target fields are emitted and on whether the performed applications
succeed. -/
def map_fields (tr : Value → Option String → Except String Value)
    (source_data : Dict) : Dict → List FieldMapping → Except String Dict
  | target_data, [] => .ok target_data
  | target_data, m :: rest => do
      let td ← map_fields_step tr source_data target_data m
      map_fields tr source_data td rest

/-- Model of `FieldTransformer.map_item_list(source_items, field_mappings)`:
a comprehension evaluated left to right, propagating the first exception. -/
def map_item_list (tr : Value → Option String → Except String Value) :
    List Dict → List FieldMapping → Except String (List Dict)
  | [], _ => .ok []
  | item :: rest, field_mappings => do
      let d ← map_fields tr item [] field_mappings
      let ds ← map_item_list tr rest field_mappings
      .ok (d :: ds)

/-- The condition under which `map_fields` emits target field `k` for item
`item` from mapping `m`: both field names are present and non-empty, and the
source value is non-null unless the mapping is optional.  (Python's
`source_data.get` conflates a missing key with a stored `None`.) -/
def emitsField (item : Dict) (m : FieldMapping) (k : String) : Prop :=
  m.target_field = some k ∧ k ≠ "" ∧
    ∃ sf, m.source_field = some sf ∧ sf ≠ "" ∧
      (m.required = false ∨ pyget item sf ≠ Value.null)

instance (item : Dict) (m : FieldMapping) (k : String) : Decidable (emitsField item m k) := by
  unfold emitsField
  exact inferInstance

/-- Whether processing mapping `m` against `item` reaches the
`apply_transform` call (equivalently: emits some target field). -/
def transform_applies (item : Dict) (m : FieldMapping) : Prop :=
  ∃ k, emitsField item m k

theorem map_fields_step_ok (tr : Value → Option String → Except String Value)
    (item : Dict) (acc : Dict) (m : FieldMapping)
    (h : ∀ sf, m.source_field = some sf → transform_applies item m →
      ∃ w, tr (pyget item sf) m.transform = Except.ok w) :
    ∃ acc', map_fields_step tr item acc m = Except.ok acc' ∧
      ∀ k, (hasKey acc' k = true ↔ emitsField item m k ∨ hasKey acc k = true) := by
  obtain ⟨osf, otf, mtr, req⟩ := m
  unfold map_fields_step emitsField
  cases osf with
  | none => exact ⟨acc, rfl, by simp⟩
  | some sf =>
    cases otf with
    | none => exact ⟨acc, rfl, by simp⟩
    | some tf =>
      simp only
      by_cases hsf : sf = ""
      · subst hsf
        refine ⟨acc, by rw [if_pos (Or.inl rfl)], ?_⟩
        intro k
        simp
      · by_cases htf : tf = ""
        · subst htf
          refine ⟨acc, by rw [if_pos (Or.inr rfl)], ?_⟩
          intro k
          simp only [Option.some.injEq]
          constructor
          · exact Or.inr
          · rintro (⟨rfl, hk, _⟩ | h)
            · exact absurd rfl hk
            · exact h
        · by_cases hreq : req = true ∧ pyget item sf = Value.null
          · refine ⟨acc, ?_, ?_⟩
            · rw [if_neg (by simp [hsf, htf]), if_pos (by simp [hreq.1, hreq.2])]
            · intro k
              simp only [Option.some.injEq]
              constructor
              · exact Or.inr
              · rintro (⟨rfl, _, sf', hsf', _, hor⟩ | h)
                · cases hsf'
                  rcases hor with h' | h'
                  · rw [hreq.1] at h'; cases h'
                  · exact absurd hreq.2 h'
                · exact h
          · have hor : req = false ∨ pyget item sf ≠ Value.null := by
              rcases Decidable.not_and_iff_or_not.mp hreq with h' | h'
              · exact Or.inl (by simpa using h')
              · exact Or.inr h'
            obtain ⟨w, hw⟩ := h sf rfl ⟨tf, rfl, htf, sf, rfl, hsf, hor⟩
            have hcond : (req && pyget item sf == Value.null) = false := by
              rcases hor with h' | h'
              · simp [h']
              · simp [h']
            refine ⟨dinsert tf w acc, ?_, ?_⟩
            · rw [if_neg (by simp [hsf, htf]), hcond]
              simp only [Bool.false_eq_true, if_false]
              rw [hw]
              rfl
            · intro k
              rw [hasKey_dinsert]
              simp only [Option.some.injEq, Bool.or_eq_true, beq_iff_eq]
              constructor
              · rintro (rfl | h')
                · exact Or.inl ⟨rfl, htf, sf, rfl, hsf, hor⟩
                · exact Or.inr h'
              · rintro (⟨rfl, _, _, _, _, _⟩ | h')
                · exact Or.inl rfl
                · exact Or.inr h'

theorem map_fields_ok (tr : Value → Option String → Except String Value)
    (item : Dict) (fms : List FieldMapping)
    (h : ∀ m ∈ fms, ∀ sf, m.source_field = some sf → transform_applies item m →
      ∃ w, tr (pyget item sf) m.transform = Except.ok w) :
    ∀ acc : Dict, ∃ d, map_fields tr item acc fms = Except.ok d ∧
      ∀ k, (hasKey d k = true ↔ hasKey acc k = true ∨ ∃ m ∈ fms, emitsField item m k) := by
  induction fms with
  | nil => intro acc; exact ⟨acc, rfl, by simp⟩
  | cons m rest ih =>
      intro acc
      obtain ⟨acc', hstep, hkeys⟩ :=
        map_fields_step_ok tr item acc m (h m (List.mem_cons_self m rest))
      obtain ⟨d, hgo, hkeys'⟩ :=
        ih (fun m' hm' => h m' (List.mem_cons_of_mem _ hm')) acc'
      refine ⟨d, ?_, ?_⟩
      · rw [map_fields, hstep]
        exact hgo
      · intro k
        rw [hkeys' k]
        constructor
        · rintro (ha | ⟨m', hm', he⟩)
          · rcases (hkeys k).mp ha with he | ha'
            · exact Or.inr ⟨m, List.mem_cons_self _ _, he⟩
            · exact Or.inl ha'
          · exact Or.inr ⟨m', List.mem_cons_of_mem _ hm', he⟩
        · rintro (ha | ⟨m', hm', he⟩)
          · exact Or.inl ((hkeys k).mpr (Or.inr ha))
          · rcases List.mem_cons.mp hm' with rfl | hm''
            · exact Or.inl ((hkeys k).mpr (Or.inl he))
            · exact Or.inr ⟨m', hm'', he⟩

/-! ## Python string primitives used by `_execute_log`

Python strings are sequences of characters; substring containment (`in`) and
`str.replace` (left-to-right, non-overlapping) are modelled over `List Char`
and lifted back to `String`. -/

/-- Python `pat in s` (substring containment). -/
def listContainsSub (s pat : List Char) : Bool :=
  match s with
  | [] => pat.isEmpty
  | _ :: cs => pat.isPrefixOf s || listContainsSub cs pat

/-- Worker for Python `s.replace(pat, rep)`: left-to-right, non-overlapping.
Recursion is on explicit fuel so that concrete instances reduce in the
kernel; `listReplaceSub` below supplies enough fuel that it never runs out
(each step consumes at least one character of `s`).  An empty pattern (never
produced by `_execute_log`, whose patterns always contain braces) inserts
`rep` at every position, as in Python. -/
def listReplaceFuel (pat rep : List Char) : Nat → List Char → List Char
  | 0, s => s
  | fuel + 1, s =>
      match pat with
      | [] => rep ++ (s.map (fun c => c :: rep)).flatten
      | p :: ps =>
          match s with
          | [] => []
          | c :: cs =>
              if (p :: ps).isPrefixOf (c :: cs) then
                rep ++ listReplaceFuel pat rep fuel ((c :: cs).drop (p :: ps).length)
              else
                c :: listReplaceFuel pat rep fuel cs

/-- Python `s.replace(pat, rep)`. -/
def listReplaceSub (s pat rep : List Char) : List Char :=
  listReplaceFuel pat rep (s.length + 1) s

def strContains (s pat : String) : Bool :=
  listContainsSub s.toList pat.toList

def strReplace (s pat rep : String) : String :=
  String.mk (listReplaceSub s.toList pat.toList rep.toList)

theorem listReplaceFuel_of_not_contains (pat rep : List Char) (fuel : Nat)
    (s : List Char) (h : listContainsSub s pat = false) :
    listReplaceFuel pat rep fuel s = s := by
  induction fuel generalizing s with
  | zero => rfl
  | succ fuel ih =>
      cases pat with
      | nil =>
          exfalso
          cases s with
          | nil => simp [listContainsSub] at h
          | cons c cs => simp [listContainsSub, List.isPrefixOf] at h
      | cons p ps =>
          cases s with
          | nil => rfl
          | cons c cs =>
              rw [listContainsSub, Bool.or_eq_false_iff] at h
              rw [listReplaceFuel, if_neg (by simp [h.1]), ih cs h.2]

theorem strReplace_of_not_contains (s pat rep : String)
    (h : strContains s pat = false) : strReplace s pat rep = s := by
  rw [strReplace, listReplaceSub, listReplaceFuel_of_not_contains _ _ _ _ h]
  cases s
  rfl

mutual

/-- Python `repr` on this value domain (as used by `str` on lists/dicts).
Escaping inside string literals is not reproduced; every string this file
evaluates `pyRepr` on is quote-free. -/
def pyRepr : Value → String
  | .null => "None"
  | .int n => toString n
  | .str s => "'" ++ s ++ "'"
  | .list xs => "[" ++ String.intercalate ", " (pyReprList xs) ++ "]"
  | .dict kvs => String.singleton (Char.ofNat 123) ++
      String.intercalate ", " (pyReprPairs kvs) ++ String.singleton (Char.ofNat 125)

def pyReprList : List Value → List String
  | [] => []
  | v :: vs => pyRepr v :: pyReprList vs

def pyReprPairs : List (String × Value) → List String
  | [] => []
  | (k, v) :: kvs => ("'" ++ k ++ "': " ++ pyRepr v) :: pyReprPairs kvs

end

/-- Python `str(v)`. -/
def pyStr : Value → String
  | .null => "None"
  | .int n => toString n
  | .str s => s
  | .list xs => pyRepr (.list xs)
  | .dict kvs => pyRepr (.dict kvs)

/-! ## Data model (`src/callie/models/stages.py`) -/

/-- The `StageType` enumeration.  `condition` and `loop` are declared in the model
but have no interpreter branch (`_execute_stage` raises `ValueError` on
them). -/
inductive StageType where
  | connector_method
  | transform
  | filter
  | map_fields
  | condition
  | loop
  | log
  | set_variable
deriving DecidableEq

/-- The `StageErrorStrategy` enumeration.  `cont` stands for the source's
`CONTINUE` member (a reserved word in Lean). -/
inductive StageErrorStrategy where
  | fail
  | skip
  | cont
  | retry
deriving DecidableEq

/-- Model of `StageConfig` (pydantic model).  Pydantic enforces the field types, so the
record is typed: string lists are string lists, optional strings are
`Option String`.  `retry_count` is declared `int`; a negative value behaves
exactly like `0` in the only comparison the engine performs
(`result.retry_count < stage.retry_count` with a left side of `0`), so it is
modelled as `Nat`.  Timestamp fields are omitted (see module docstring). -/
structure StageConfig where
  id : String
  type : StageType
  enabled : Bool := true
  connector : Option String := none
  method : Option String := none
  parameters : Dict := []
  input_variables : List String := []
  output_variable : Option String := none
  depends_on : List String := []
  condition : Option String := none
  error_strategy : StageErrorStrategy := .fail
  retry_count : Nat := 0
  retry_delay : Nat := 5
deriving DecidableEq

/-- Model of `StageResult` (pydantic model), without timestamps. -/
structure StageResult where
  stage_id : String
  status : String
  output_data : Value := .null
  items_processed : Nat := 0
  error_message : Option String := none
  retry_count : Nat := 0
deriving DecidableEq

/-- Model of `WorkflowConfig` restricted to the fields the engine reads.  `vars`
models the source's `variables` field (a reserved command name in Lean). -/
structure WorkflowConfig where
  id : String
  source : Dict := []
  target : Dict := []
  stages : List StageConfig
  vars : Dict := []
deriving DecidableEq

/-- Model of `WorkflowExecution` (pydantic model).  `completed_at : Bool` records
whether the completion timestamp was assigned; the execution id's embedded
wall-clock component and the elapsed-seconds field are not modelled. -/
structure WorkflowExecution where
  id : String
  workflow_id : String
  status : String := "running"
  stage_results : List StageResult := []
  total_stages : Nat := 0
  completed_stages : Nat := 0
  failed_stages : Nat := 0
  skipped_stages : Nat := 0
  error_message : Option String := none
  completed_at : Bool := false
  triggered_by : String := "manual"
deriving DecidableEq

/-- Model of `WorkflowExecutionContext`: per-run variable store, accumulated stage
results, and live connectors.  A connector instance is represented by its
service type (`"shipstation"` / `"infiplex"`), keyed by its logical name
(`"source"` / `"target"`).  `vars` models the source's `variables` field (a
reserved command name in Lean). -/
structure Context where
  vars : Dict := []
  stage_results : List StageResult := []
  connectors : List (String × String) := []
deriving DecidableEq

/-- Shape of a connector method signature, as seen through
`inspect.signature`: the declared parameter names (`sig.parameters`, without
`self` for a bound method, including the name of a `**kwargs` parameter if
any) and whether a `VAR_KEYWORD` (`**kwargs`) parameter is present. -/
structure MethodSig where
  params : List String := []
  hasVarKeyword : Bool := false
deriving DecidableEq

/-- External behaviour the engine dispatches into: connector construction
(`ShipStationConnector()` / `InfiPlexConnector()`, whose `__init__` may raise
like any Python constructor) and dynamic method invocation.  `methodSig`
models `hasattr`/`inspect.signature` (keyed by connector service type and
method name; `none` means the attribute is missing) and `call` models the
actual invocation `method(**filtered_args)` with the already-filtered
argument dictionary. -/
structure Env where
  ctor : String → Except String Unit := fun _ => .ok ()
  methodSig : String → String → Option MethodSig := fun _ _ => none
  call : String → String → Dict → Except String Value := fun _ _ _ => .error "not callable"

/-! ## Stage interpreter helpers (`WorkflowEngine`) -/

/-- Model of `WorkflowExecutionContext.get_variable(name)` with the default `None`. -/
def get_variable (ctx : Context) (name : String) : Value :=
  pyget ctx.vars name

/-- Model of `WorkflowEngine._evaluate_condition`: `"exists:var"` checks presence and
truthiness of the variable; any other condition string evaluates to true. -/
def evaluate_condition (cond : String) (ctx : Context) : Bool :=
  if cond.startsWith "exists:" then
    let var_name := cond.drop 7
    hasKey ctx.vars var_name && pyTruthy (pyget ctx.vars var_name)
  else true

/-- Model of `WorkflowEngine._check_dependencies`: every id in `depends_on` must occur
in the context's `stage_results` with status `"success"`. -/
def check_dependencies (stage : StageConfig) (ctx : Context) : Bool :=
  if stage.depends_on.isEmpty then true
  else stage.depends_on.all (fun dep_id =>
    ctx.stage_results.any (fun r => r.status == "success" && r.stage_id == dep_id))

/-- The single input value of a `transform`/`filter`/`map_fields` stage:
`context.get_variable(stage.input_variables[0])`, or Python `None` when
`input_variables` is empty (the source leaves `input_data = None`). -/
def stage_input (stage : StageConfig) (ctx : Context) : Value :=
  match stage.input_variables with
  | [] => .null
  | v :: _ => get_variable ctx v

/-- Python `d.get(field)` where `field` is itself a runtime value (the engine
reads `field` out of the free-form parameter dict).  An unhashable key raises
`TypeError`; a hashable non-string key is simply absent from a string-keyed
JSON dictionary. -/
def dget_vkey (d : Dict) (k : Value) : Except String Value :=
  match k with
  | .str s => .ok (pyget d s)
  | .list _ => .error "TypeError: unhashable type: 'list'"
  | .dict _ => .error "TypeError: unhashable type: 'dict'"
  | _ => .ok .null

/-- Python `item.get(field)` on an arbitrary value: non-dict items have no
`get` attribute. -/
def item_get (item : Value) (k : Value) : Except String Value :=
  match item with
  | .dict d => dget_vkey d k
  | _ => .error "AttributeError: object has no attribute 'get'"

/-- Python `d[field] = value` where `field` is a runtime value.  An unhashable
key raises `TypeError`.  A hashable non-string key would create a non-string
dictionary key, which the string-keyed `Dict` model cannot represent; no
claim in this file exercises that corner (the engine only hits it when a
workflow author puts a non-string `field` parameter in an `add_field`
stage), so it is mapped to a model-boundary error. -/
def dset_vkey (d : Dict) (k : Value) (v : Value) : Except String Dict :=
  match k with
  | .str s => .ok (dinsert s v d)
  | .list _ => .error "TypeError: unhashable type: 'list'"
  | .dict _ => .error "TypeError: unhashable type: 'dict'"
  | _ => .error "model boundary: non-string dictionary key"

/-- Model of `context.get_variable(name)` where `name` is a runtime value (the
`value_from_variable` filter parameter).  Hashable non-string names miss the
string-keyed variable map; unhashable ones raise. -/
def var_get_vkey (ctx : Context) (k : Value) : Except String Value :=
  match k with
  | .str s => .ok (pyget ctx.vars s)
  | .list _ => .error "TypeError: unhashable type: 'list'"
  | .dict _ => .error "TypeError: unhashable type: 'dict'"
  | _ => .ok .null

/-- Effectful filter for Python list comprehensions whose predicate may
raise: evaluates the predicate left to right and propagates the first
exception. -/
def filterME (p : Value → Except String Bool) : List Value → Except String (List Value)
  | [] => .ok []
  | x :: xs => do
      let b ← p x
      let rest ← filterME p xs
      .ok (if b then x :: rest else rest)

/-- Python slice normalization for `xs[a:b]` with integer bounds. -/
def sliceIndex (len : Nat) (i : Int) : Nat :=
  if i < 0 then (len + i).toNat else min i.toNat len

/-- Python `input_data[start:end]` where the bounds come from the parameter
dict: integers slice (with negative-index normalization), `None` means the
respective default, anything else raises `TypeError`. -/
def py_slice (xs : List Value) (s e : Value) : Except String (List Value) := do
  let a ← match s with
    | .int n => Except.ok (sliceIndex xs.length n)
    | .null => Except.ok 0
    | _ => Except.error "TypeError: slice indices must be integers or None"
  let b ← match e with
    | .int n => Except.ok (sliceIndex xs.length n)
    | .null => Except.ok xs.length
    | _ => Except.error "TypeError: slice indices must be integers or None"
  Except.ok ((xs.drop a).take (b - a))

/-- Model of `WorkflowEngine._execute_transform`. -/
def execute_transform (stage : StageConfig) (ctx : Context) : Except String Value :=
  let input_data := stage_input stage ctx
  let transform_type := dgetD stage.parameters "transform_type" (.str "identity")
  match transform_type with
  | .str s =>
      if s = "identity" then .ok input_data
      else if s = "extract_field" then
        let field := pyget stage.parameters "field"
        match input_data with
        | .list xs =>
            ((xs.filter Value.isDict).mapM (fun item => item_get item field)).map Value.list
        | .dict d => dget_vkey d field
        | _ => .ok input_data
      else if s = "filter_field" then
        let field := pyget stage.parameters "field"
        let value := pyget stage.parameters "value"
        match input_data with
        | .list xs =>
            (filterME (fun item => (item_get item field).map (fun v => v == value)) xs).map
              Value.list
        | _ => .ok input_data
      else if s = "add_field" then
        let field := pyget stage.parameters "field"
        let value := pyget stage.parameters "value"
        match input_data with
        | .list xs =>
            (xs.mapM (fun item =>
              (match item with
              | .dict d => (dset_vkey d field value).map Value.dict
              | other => Except.ok other : Except String Value))).map Value.list
        | .dict d => (dset_vkey d field value).map Value.dict
        | _ => .ok input_data
      else if s = "slice" then
        let s0 := dgetD stage.parameters "start" (.int 0)
        let e0 := dgetD stage.parameters "end" (.int 5)
        match input_data with
        | .list xs => (py_slice xs s0 e0).map Value.list
        | _ => .ok input_data
      else .ok input_data
  | _ => .ok input_data

/-- The membership test of `_execute_filter`'s comprehension:
`item.get(filter_field) in filter_set`.  Looking a value up in a Python set
hashes it, so an unhashable field value raises `TypeError`; membership on
hashable values coincides with equality against the set's elements. -/
def filter_member_check (filter_field : Value) (vs : List Value) (item : Value) :
    Except String Bool := do
  let v ← item_get item filter_field
  if hashableB v then .ok (vs.any (fun w => w == v))
  else .error "TypeError: unhashable type"

/-- Model of `WorkflowEngine._execute_filter`.  `set(filter_values)` hashes every
element up front, so an unhashable element raises `TypeError` before any
item is examined. -/
def execute_filter (stage : StageConfig) (ctx : Context) : Except String Value :=
  let input_data := stage_input stage ctx
  match input_data with
  | .list xs =>
      let filter_field := pyget stage.parameters "field"
      let value_from_variable := pyget stage.parameters "value_from_variable"
      let fallback : Except String Value :=
        let filter_value := pyget stage.parameters "value"
        if pyTruthy filter_field && !filter_value.isNull then
          (filterME (fun item => (item_get item filter_field).map (fun v => v == filter_value))
            xs).map Value.list
        else .ok (.list xs)
      if pyTruthy filter_field && pyTruthy value_from_variable then do
        let filter_values ← var_get_vkey ctx value_from_variable
        match filter_values with
        | .list vs =>
            if vs.all hashableB then
              (filterME (filter_member_check filter_field vs) xs).map Value.list
            else .error "TypeError: unhashable type"
        | _ => fallback
      else fallback
  | other => .ok other

/-- Model of `WorkflowEngine._execute_map_fields` (the engine's key-rename stage, not
`FieldTransformer.map_fields`).  The rename map is the `mappings` parameter;
`field_mappings.get(k, k)` on a non-dict raises `AttributeError`.  A rename
target that is not a string would create a non-string key (model boundary,
as in `dset_vkey`). -/
def rename_key (field_mappings : Value) (k : String) : Except String String :=
  match field_mappings with
  | .dict m =>
      match dlookup m k with
      | some (.str s) => .ok s
      | some (.list _) => .error "TypeError: unhashable type: 'list'"
      | some (.dict _) => .error "TypeError: unhashable type: 'dict'"
      | some _ => .error "model boundary: non-string dictionary key"
      | none => .ok k
  | _ => .error "AttributeError: object has no attribute 'get'"

def rename_item (field_mappings : Value) (d : Dict) : Except String Dict :=
  d.foldlM (fun acc p => do
    let k' ← rename_key field_mappings p.1
    Except.ok (dinsert k' p.2 acc)) []

def execute_map_fields (stage : StageConfig) (ctx : Context) : Except String Value :=
  let input_data := stage_input stage ctx
  let field_mappings := dgetD stage.parameters "mappings" (.dict [])
  match input_data with
  | .list xs =>
      ((xs.filter Value.isDict).mapM (fun item =>
        (match item with
        | .dict d => (rename_item field_mappings d).map Value.dict
        | other => Except.ok other : Except String Value))).map Value.list
  | .dict d => (rename_item field_mappings d).map Value.dict
  | _ => .ok input_data

/-- Model of `WorkflowEngine._execute_set_variable`.  Returns the value and the
updated context.  A truthy non-string `variable_name` would create a
non-string variable key; no other engine operation can read such a key
(`input_variables` and log placeholders are strings), and no claim
exercises it, so the write is dropped at the model boundary. -/
def execute_set_variable (stage : StageConfig) (ctx : Context) : Value × Context :=
  let var_name := pyget stage.parameters "variable_name"
  let var_value := pyget stage.parameters "value"
  if pyTruthy var_name then
    match var_name with
    | .str s => (var_value, { ctx with vars := dinsert s var_value ctx.vars })
    | _ => (var_value, ctx)
  else (var_value, ctx)

/-- The placeholder `\x7bn\x7d` (an open brace, the variable name, a close
brace; braces are written via their code points). -/
def var_placeholder (n : String) : String :=
  String.singleton (Char.ofNat 123) ++ n ++ String.singleton (Char.ofNat 125)

/-- The placeholder `\x7blen(n)\x7d`. -/
def len_placeholder_of (n : String) : String :=
  String.singleton (Char.ofNat 123) ++ "len(" ++ n ++ ")" ++ String.singleton (Char.ofNat 125)

/-- One iteration of `_execute_log`'s substitution loop for variable
`(n, v)`: replace `\x7bn\x7d` by `str(v)` if present, then replace
`\x7blen(n)\x7d` by the length for a list value and `"N/A"` otherwise. -/
def log_subst (msg : String) (n : String) (v : Value) : String :=
  let msg1 := if strContains msg (var_placeholder n) then
      strReplace msg (var_placeholder n) (pyStr v)
    else msg
  if strContains msg1 (len_placeholder_of n) then
    match v with
    | .list xs => strReplace msg1 (len_placeholder_of n) (toString xs.length)
    | _ => strReplace msg1 (len_placeholder_of n) "N/A"
  else msg1

/-- Model of `WorkflowEngine._execute_log`.  The loop iterates over the context
variables in insertion order.  A non-string `message` parameter raises
`TypeError` at the first `placeholder in message` test (so only when the
variable map is non-empty); with an empty variable map it is returned
untouched. -/
def execute_log (stage : StageConfig) (ctx : Context) : Except String Value :=
  let message := dgetD stage.parameters "message" (.str "")
  match message with
  | .str m => .ok (.str (ctx.vars.foldl (fun msg p => log_subst msg p.1 p.2) m))
  | other =>
      if ctx.vars.isEmpty then .ok other
      else .error "TypeError: argument of type 'int' is not iterable"

/-! ## Connector method dispatch (`WorkflowEngine._execute_connector_method`) -/

/-- Merge of (a) `stage.parameters` and (b) each `input_variables` name's
current context value (later wins), as built into `method_args` before
credential injection. -/
def merged_method_args (stage : StageConfig) (vars : Dict) : Dict :=
  stage.input_variables.foldl
    (fun args var_name =>
      if hasKey vars var_name then dinsert var_name (pyget vars var_name) args else args)
    stage.parameters

/-- Credential injection: `api_key` / `base_url` are added only when the
credential set is truthy, the method signature declares a parameter of that
name, and the credential dictionary holds that key. -/
def inject_credentials (sig : MethodSig) (credentials : Option Dict) (args : Dict) : Dict :=
  match credentials with
  | none => args
  | some c =>
      let a1 := if !c.isEmpty && sig.params.contains "api_key" && hasKey c "api_key" then
          dinsert "api_key" (pyget c "api_key") args
        else args
      if !c.isEmpty && sig.params.contains "base_url" && hasKey c "base_url" then
        dinsert "base_url" (pyget c "base_url") a1
      else a1

/-- Arity-aware filtering: with a `**kwargs` parameter every argument except
a literal `self` key passes through; otherwise only keys naming declared
parameters survive. -/
def filter_method_args (sig : MethodSig) (args : Dict) : Dict :=
  if sig.hasVarKeyword then args.filter (fun p => p.1 != "self")
  else args.filter (fun p => sig.params.contains p.1)

/-- The argument dictionary finally passed to the connector method: merge,
inject credentials, filter. -/
def connector_method_args (sig : MethodSig) (stage : StageConfig) (vars : Dict)
    (credentials : Option Dict) : Dict :=
  filter_method_args sig (inject_credentials sig credentials (merged_method_args stage vars))

/-- The hardcoded logical-name → service-type mapping used for the
"simplified credential system" (`source` → shipstation, `target` →
infiplex). -/
def connector_type_of (connector_name : String) : Option String :=
  if connector_name = "source" then some "shipstation"
  else if connector_name = "target" then some "infiplex"
  else none

/-- Lookup in `self.integration_configs` (a plain `.get`). -/
def configs_get (configs : List (String × Dict)) (k : String) : Option Dict :=
  (configs.find? (fun p => p.1 == k)).map (fun p => p.2)

/-- Model of `WorkflowEngine._execute_connector_method`. -/
def execute_connector_method (env : Env) (configs : List (String × Dict))
    (stage : StageConfig) (ctx : Context) : Except String Value := do
  match stage.connector, stage.method with
  | some cn, some mn =>
      if cn = "" || mn = "" then
        Except.error "ValueError: connector and method are required for connector_method type"
      else do
        let service_type ← match ctx.connectors.find? (fun p => p.1 == cn) with
          | some p => Except.ok p.2
          | none => Except.error "ValueError: Connector not found"
        let sig ← match env.methodSig service_type mn with
          | some s => Except.ok s
          | none => Except.error "ValueError: Connector does not have method"
        let credentials := match connector_type_of cn with
          | some t => configs_get configs t
          | none => none
        let filtered_args := connector_method_args sig stage ctx.vars credentials
        env.call service_type mn filtered_args
  | _, _ =>
      Except.error "ValueError: connector and method are required for connector_method type"

/-! ## Stage execution (`WorkflowEngine._execute_stage`) -/

/-- items-processed accounting: `len(output)` for a list, `len(output["items"])`
when a dict output has an `items` key (which raises `TypeError` when that
value has no `len`), `0` otherwise. -/
def count_items (v : Value) : Except String Nat :=
  match v with
  | .list xs => .ok xs.length
  | .dict d =>
      if hasKey d "items" then
        match pyget d "items" with
        | .list xs => .ok xs.length
        | .str s => .ok s.length
        | .dict kvs => .ok kvs.length
        | _ => .error "TypeError: object has no len()"
      else .ok 0
  | _ => .ok 0

/-- Dispatch on `stage.type` (the body of `_execute_stage`'s `try`).  The
returned context reflects mutations performed by the stage body itself
(`set_variable`); assignment of `output_variable` happens in
`execute_stage`. -/
def dispatch_stage (env : Env) (configs : List (String × Dict)) (stage : StageConfig)
    (ctx : Context) : Except String (Value × Context) :=
  match stage.type with
  | .connector_method => (execute_connector_method env configs stage ctx).map (fun v => (v, ctx))
  | .transform => (execute_transform stage ctx).map (fun v => (v, ctx))
  | .filter => (execute_filter stage ctx).map (fun v => (v, ctx))
  | .map_fields => (execute_map_fields stage ctx).map (fun v => (v, ctx))
  | .set_variable => .ok (execute_set_variable stage ctx)
  | .log => (execute_log stage ctx).map (fun v => (v, ctx))
  | _ => .error "ValueError: Unknown stage type"

/-- Model of `stage.output_variable and output_data is not None` — store the output
under the declared variable. -/
def store_output (stage : StageConfig) (out : Value) (ctx : Context) : Context :=
  match stage.output_variable with
  | some ov => if ov ≠ "" && !out.isNull then { ctx with vars := dinsert ov out ctx.vars } else ctx
  | none => ctx

/-- Whether the `except` branch re-executes the stage.  The source guard is
`result.retry_count < stage.retry_count`, but `result` is the `StageResult`
freshly created by *this* invocation, whose `retry_count` is the pydantic
default `0`; the increment before the recursive call mutates only the
abandoned local result.  The guard therefore reads `0 < stage.retry_count`
on every invocation. -/
def retries_again (stage : StageConfig) : Bool :=
  stage.error_strategy = StageErrorStrategy.retry && 0 < stage.retry_count

/-- Model of `WorkflowEngine._execute_stage`, with explicit fuel for the recursive
retry; `none` means the recursion did not terminate within `fuel`
invocations.  Each invocation: fresh result (status `running`,
`retry_count = 0`), condition gate, dispatch, output-variable store,
items-processed accounting; any exception is caught and either retried
(recursively, from the possibly-mutated context) or returned as a failed
result. -/
def execute_stage (env : Env) (configs : List (String × Dict)) :
    Nat → StageConfig → Context → Option (StageResult × Context)
  | 0, _, _ => none
  | fuel + 1, stage, ctx =>
      let condition_skips := match stage.condition with
        | some c => c ≠ "" && !evaluate_condition c ctx
        | none => false
      if condition_skips then
        some ({ stage_id := stage.id, status := "skipped" }, ctx)
      else
        match dispatch_stage env configs stage ctx with
        | .error msg =>
            if retries_again stage then execute_stage env configs fuel stage ctx
            else some ({ stage_id := stage.id, status := "failed",
                         error_message := some msg }, ctx)
        | .ok (output_data, ctx1) =>
            let ctx2 := store_output stage output_data ctx1
            match count_items output_data with
            | .ok n =>
                some ({ stage_id := stage.id, status := "success",
                        output_data := output_data, items_processed := n }, ctx2)
            | .error msg =>
                if retries_again stage then execute_stage env configs fuel stage ctx2
                else some ({ stage_id := stage.id, status := "failed",
                             output_data := output_data, error_message := some msg }, ctx2)

/-! ## Workflow driver (`WorkflowEngine.execute_workflow`) -/

/-- Model of `WorkflowEngine._initialize_connectors` for one binding: read
`service_type` from the binding configuration; when it names a registered
connector class (`shipstation` / `infiplex`), construct a bare instance
(whose constructor may raise) and register it under the logical name.
Membership `source_type in self.connector_classes` hashes the value, so an
unhashable `service_type` raises. -/
def init_one_connector (env : Env) (name : String) (cfg : Dict) (ctx : Context) :
    Except String Context := do
  let service_type := pyget cfg "service_type"
  if !hashableB service_type then
    Except.error "TypeError: unhashable type"
  else
    match service_type with
    | .str s =>
        if s = "shipstation" || s = "infiplex" then do
          let _ ← env.ctor s
          Except.ok { ctx with connectors := ctx.connectors ++ [(name, s)] }
        else Except.ok ctx
    | _ => Except.ok ctx

/-- Model of `WorkflowEngine._initialize_connectors`: source then target. -/
def init_connectors (env : Env) (workflow : WorkflowConfig) (ctx : Context) :
    Except String Context := do
  let ctx1 ← init_one_connector env "source" workflow.source ctx
  init_one_connector env "target" workflow.target ctx1

/-- The fresh `WorkflowExecutionContext`, seeded from `workflow.variables`
and overlaid with the caller's `initial_variables` (caller wins on key
collision). -/
def initial_context (workflow : WorkflowConfig) (initial_variables : Option Dict) : Context :=
  let base := workflow.vars
  let merged := match initial_variables with
    | some iv => iv.foldl (fun acc p => dinsert p.1 p.2 acc) base
    | none => base
  { vars := merged, stage_results := [], connectors := [] }

/-- The run-level record as created at the top of `execute_workflow`:
status `running`, `total_stages` = number of enabled stages.  The embedded
wall-clock component of the id is not modelled. -/
def init_execution (workflow : WorkflowConfig) (triggered_by : String) : WorkflowExecution :=
  { id := "workflow_" ++ workflow.id,
    workflow_id := workflow.id,
    triggered_by := triggered_by,
    total_stages := (workflow.stages.filter (fun s => s.enabled)).length }

/-- The stage loop of `execute_workflow` (lines 129-154): iterate the declared
stage list in order; skip disabled stages silently; skip stages with unmet
dependencies; otherwise execute, append the result to both the execution
record and the context, bump the matching counter, and halt on a failed
stage whose strategy is `fail`.  `none` propagates a non-terminating retry
recursion. -/
def run_stages (env : Env) (configs : List (String × Dict)) (fuel : Nat) :
    List StageConfig → WorkflowExecution → Context → Option (WorkflowExecution × Context)
  | [], execution, ctx => some (execution, ctx)
  | stage :: rest, execution, ctx =>
      if !stage.enabled then run_stages env configs fuel rest execution ctx
      else if !check_dependencies stage ctx then run_stages env configs fuel rest execution ctx
      else
        match execute_stage env configs fuel stage ctx with
        | none => none
        | some (stage_result, ctx1) =>
            let execution1 := { execution with
              stage_results := execution.stage_results ++ [stage_result] }
            let ctx2 := { ctx1 with stage_results := ctx1.stage_results ++ [stage_result] }
            if stage_result.status = "success" then
              run_stages env configs fuel rest
                { execution1 with completed_stages := execution1.completed_stages + 1 } ctx2
            else if stage_result.status = "failed" then
              let execution2 := { execution1 with failed_stages := execution1.failed_stages + 1 }
              if stage.error_strategy = StageErrorStrategy.fail then
                some ({ execution2 with
                          status := "failed"
                          error_message := stage_result.error_message }, ctx2)
              else run_stages env configs fuel rest execution2 ctx2
            else if stage_result.status = "skipped" then
              run_stages env configs fuel rest
                { execution1 with skipped_stages := execution1.skipped_stages + 1 } ctx2
            else run_stages env configs fuel rest execution1 ctx2

/-- Model of `WorkflowEngine.execute_workflow`.  The entire body is wrapped in
`try/except/finally`: any exception escaping connector initialization or the
stage loop is caught once, marks the execution failed with the exception
message, and the `finally` block always assigns the completion timestamp.
In this model the only raising step is connector initialization
(`_execute_stage` catches stage-level exceptions itself); a `none` result
propagates a non-terminating retry recursion, which in CPython would
eventually surface as a caught `RecursionError`. -/
def execute_workflow (env : Env) (configs : List (String × Dict)) (fuel : Nat)
    (workflow : WorkflowConfig) (triggered_by : String)
    (initial_variables : Option Dict) : Option WorkflowExecution :=
  let execution := init_execution workflow triggered_by
  match init_connectors env workflow (initial_context workflow initial_variables) with
  | .error msg =>
      some { execution with
               status := "failed"
               error_message := some msg
               completed_at := true }
  | .ok ctx =>
      match run_stages env configs fuel workflow.stages execution ctx with
      | none => none
      | some (execution1, _) =>
          let execution2 := if execution1.status = "running" then
              { execution1 with status := "completed" }
            else execution1
          some { execution2 with completed_at := true }

/-! ## Driver lemmas -/

/-- A stage whose dependency check fails (or which is disabled) leaves the
loop state untouched: the driver just moves on. -/
theorem run_stages_skip_dep (env : Env) (configs : List (String × Dict)) (fuel : Nat)
    (stage : StageConfig) (rest : List StageConfig) (execution : WorkflowExecution)
    (ctx : Context) (h : check_dependencies stage ctx = false) :
    run_stages env configs fuel (stage :: rest) execution ctx =
      run_stages env configs fuel rest execution ctx := by
  rw [run_stages]
  cases he : stage.enabled with
  | false => simp
  | true => simp [h]

/-- The stage `retry_forever_stage`: a `connector_method` stage with no connector and no
method, so every dispatch raises
`ValueError: connector and method are required ...`; its strategy is `retry`
with `retry_count = 1`. -/
def retry_forever_stage : StageConfig :=
  { id := "sync_stage", type := .connector_method,
    error_strategy := .retry, retry_count := 1 }

/-- Claim C1.  The claim (and §4.4 of the spec) says a stage with
`error_strategy=retry, retry_count=N` whose execution always fails is
attempted at most `N+1` times, after which the last failed `StageResult` is
returned.  The code cannot deliver that: each recursive call of
`_execute_stage` builds a fresh `StageResult` whose `retry_count` is the
pydantic default `0`, so the guard `result.retry_count < stage.retry_count`
compares `0 < N` on every invocation and the recursion never stops by its
own counting (`retries_again` is constant); in CPython the recursion only
ends when a `RecursionError` propagates to the top-level handler, so the
caller never receives the stage's own result.  Formally: for every
environment, credential configuration, context and every fuel bound, the
modelled `_execute_stage` fails to terminate on an always-failing retry
stage with `retry_count = 1`, where fuel `N+2 = 3` would suffice if the
claimed bound held. -/
theorem C1_retry_unbounded (env : Env) (configs : List (String × Dict)) (ctx : Context) :
    ∀ fuel : Nat, execute_stage env configs fuel retry_forever_stage ctx = none := by
  intro fuel
  induction fuel generalizing ctx with
  | zero => rfl
  | succ n ih =>
      show execute_stage env configs n retry_forever_stage ctx = none
      exact ih ctx

/-- Claim C2.  A failed stage whose `error_strategy` is `fail` halts the run
at that point: the result is appended, the failed counter bumped, the
execution status set to `"failed"` with the stage's error message copied,
and the returned execution is entirely independent of the remaining stages
`rest` — no later stage executes or contributes a `StageResult`. -/
theorem C2_fail_strategy_halts (env : Env) (configs : List (String × Dict)) (fuel : Nat)
    (stage : StageConfig) (rest : List StageConfig) (execution : WorkflowExecution)
    (ctx : Context) (stage_result : StageResult) (ctx1 : Context)
    (hen : stage.enabled = true)
    (hdep : check_dependencies stage ctx = true)
    (hex : execute_stage env configs fuel stage ctx = some (stage_result, ctx1))
    (hst : stage_result.status = "failed")
    (hfail : stage.error_strategy = StageErrorStrategy.fail) :
    run_stages env configs fuel (stage :: rest) execution ctx =
      some ({ execution with
                stage_results := execution.stage_results ++ [stage_result]
                failed_stages := execution.failed_stages + 1
                status := "failed"
                error_message := stage_result.error_message },
            { ctx1 with stage_results := ctx1.stage_results ++ [stage_result] }) := by
  rw [run_stages, hen, hdep, hex]
  simp [hst, hfail]

/-- Claim C3.  (i) `_check_dependencies` succeeds exactly when every id in
`depends_on` occurs in the context's `stage_results` with status
`"success"`; (ii) an enabled stage whose dependency check fails at its turn
is not executed in that pass — the driver continues with the remaining
stages from an unchanged state. -/
theorem C3_dependency_gate :
    (∀ (stage : StageConfig) (ctx : Context),
      check_dependencies stage ctx = true ↔
        ∀ dep_id ∈ stage.depends_on, ∃ r ∈ ctx.stage_results,
          r.status = "success" ∧ r.stage_id = dep_id) ∧
    (∀ (env : Env) (configs : List (String × Dict)) (fuel : Nat) (stage : StageConfig)
      (rest : List StageConfig) (execution : WorkflowExecution) (ctx : Context),
      stage.enabled = true → check_dependencies stage ctx = false →
      run_stages env configs fuel (stage :: rest) execution ctx =
        run_stages env configs fuel rest execution ctx) := by
  constructor
  · intro stage ctx
    rw [check_dependencies]
    by_cases he : stage.depends_on.isEmpty
    · rw [if_pos he]
      simp [List.isEmpty_iff.mp he]
    · rw [if_neg he, List.all_eq_true]
      constructor
      · intro h dep_id hdep
        have := h dep_id hdep
        rw [List.any_eq_true] at this
        obtain ⟨r, hr, hb⟩ := this
        rw [Bool.and_eq_true, beq_iff_eq, beq_iff_eq] at hb
        exact ⟨r, hr, hb.1, hb.2⟩
      · intro h dep_id hdep
        obtain ⟨r, hr, h1, h2⟩ := h dep_id hdep
        rw [List.any_eq_true]
        exact ⟨r, hr, by rw [Bool.and_eq_true, beq_iff_eq, beq_iff_eq]; exact ⟨h1, h2⟩⟩
  · intro env configs fuel stage rest execution ctx _ h
    exact run_stages_skip_dep env configs fuel stage rest execution ctx h

/-- Concrete material for the driver witnesses. -/
def fail_halt_stage : StageConfig :=
  { id := "f1", type := .connector_method, error_strategy := .fail }

def after_stage : StageConfig :=
  { id := "f2", type := .log, parameters := [("message", .str "later")] }

def demo_execution : WorkflowExecution := { id := "e1", workflow_id := "w1" }

def fail_halt_result : StageResult :=
  { stage_id := "f1", status := "failed",
    error_message :=
      some "ValueError: connector and method are required for connector_method type" }

/-- Witness for C2: a concrete failing `fail`-strategy stage halts the loop;
the stage listed after it contributes nothing. -/
theorem C2_fail_strategy_halts_witness :
    run_stages {} [] 1 [fail_halt_stage, after_stage] demo_execution {} =
      some ({ demo_execution with
                stage_results := [fail_halt_result]
                failed_stages := 1
                status := "failed"
                error_message := fail_halt_result.error_message },
            { stage_results := [fail_halt_result] }) :=
  C2_fail_strategy_halts {} [] 1 fail_halt_stage [after_stage] demo_execution {}
    fail_halt_result {} rfl rfl rfl rfl rfl

def dep_gate_stage : StageConfig :=
  { id := "d1", type := .log, depends_on := ["missing"] }

/-- Witness for C3: a stage depending on an id with no successful result is
skipped without effect. -/
theorem C3_dependency_gate_witness :
    check_dependencies dep_gate_stage {} = false ∧
    run_stages {} [] 1 [dep_gate_stage] demo_execution {} =
      run_stages {} [] 1 [] demo_execution {} :=
  ⟨rfl, C3_dependency_gate.2 {} [] 1 dep_gate_stage [] demo_execution {} rfl rfl⟩

/-- Claim C4.  (i) Whenever `execute_workflow` returns an execution record,
its completion timestamp has been assigned (the `finally` block).  (ii) An
exception escaping connector initialization is caught once at the top
level: the caller still receives the (partially populated) execution
record, with status `failed` and the exception's message. -/
theorem C4_always_returns_execution :
    (∀ (env : Env) (configs : List (String × Dict)) (fuel : Nat)
       (workflow : WorkflowConfig) (triggered_by : String)
       (initial_variables : Option Dict) (e : WorkflowExecution),
       execute_workflow env configs fuel workflow triggered_by initial_variables = some e →
       e.completed_at = true) ∧
    (∀ (env : Env) (configs : List (String × Dict)) (fuel : Nat)
       (workflow : WorkflowConfig) (triggered_by : String)
       (initial_variables : Option Dict) (msg : String),
       init_connectors env workflow (initial_context workflow initial_variables) =
         Except.error msg →
       execute_workflow env configs fuel workflow triggered_by initial_variables =
         some { init_execution workflow triggered_by with
                  status := "failed"
                  error_message := some msg
                  completed_at := true }) := by
  constructor
  · intro env configs fuel workflow tb iv e h
    rw [execute_workflow] at h
    split at h
    · cases h
      rfl
    · split at h
      · cases h
      · cases h
        rfl
  · intro env configs fuel workflow tb iv msg h
    rw [execute_workflow, h]

def boom_env : Env := { ctor := fun _ => .error "boom" }

def boom_workflow : WorkflowConfig :=
  { id := "wb", source := [("service_type", .str "shipstation")], stages := [] }

def boom_result : WorkflowExecution :=
  { init_execution boom_workflow "manual" with
      status := "failed"
      error_message := some "boom"
      completed_at := true }

/-- Witness for C4: a connector constructor that raises is caught; the
caller still receives a failed execution record with the timestamp set. -/
theorem C4_always_returns_execution_witness :
    execute_workflow boom_env [] 1 boom_workflow "manual" none = some boom_result ∧
    boom_result.completed_at = true :=
  ⟨C4_always_returns_execution.2 boom_env [] 1 boom_workflow "manual" none "boom" rfl,
   C4_always_returns_execution.1 boom_env [] 1 boom_workflow "manual" none boom_result
     (C4_always_returns_execution.2 boom_env [] 1 boom_workflow "manual" none "boom" rfl)⟩

/-- Demonstration workflow for C10: two enabled stages; the second depends on
an id that never succeeds. -/
def wf_dep_demo : WorkflowConfig :=
  { id := "wdep",
    stages := [
      { id := "s1", type := .log, parameters := [("message", .str "hi")] },
      { id := "s2", type := .log, parameters := [("message", .str "bye")],
        depends_on := ["ghost"] } ] }

def wf_dep_demo_result : WorkflowExecution :=
  { id := "workflow_wdep", workflow_id := "wdep", status := "completed",
    stage_results := [
      { stage_id := "s1", status := "success", output_data := .str "hi" }],
    total_stages := 2, completed_stages := 1, failed_stages := 0, skipped_stages := 0,
    completed_at := true, triggered_by := "manual" }

/-- Claim C10.  (i) A stage skipped for unmet dependencies leaves no trace:
the driver's state (execution record, counters, results, context) is passed
to the remaining stages unchanged.  (ii) Consequently the counters need not
add up to `total_stages`: a concrete run with two enabled stages, the second
of which has an unmet dependency, completes with
`completed + failed + skipped = 1 < 2 = total_stages`. -/
theorem C10_dependency_skip_frame :
    (∀ (env : Env) (configs : List (String × Dict)) (fuel : Nat) (stage : StageConfig)
       (rest : List StageConfig) (execution : WorkflowExecution) (ctx : Context),
       stage.enabled = true → check_dependencies stage ctx = false →
       run_stages env configs fuel (stage :: rest) execution ctx =
         run_stages env configs fuel rest execution ctx) ∧
    (∃ e, execute_workflow {} [] 1 wf_dep_demo "manual" none = some e ∧
       e.status = "completed" ∧
       e.completed_stages + e.failed_stages + e.skipped_stages < e.total_stages) := by
  constructor
  · intro env configs fuel stage rest execution ctx _ h
    exact run_stages_skip_dep env configs fuel stage rest execution ctx h
  · exact ⟨wf_dep_demo_result, rfl, rfl, by decide⟩

def dep_gate_stage2 : StageConfig :=
  { id := "d2", type := .log, depends_on := ["later"] }

/-- Witness for C10: concrete instance of the frame property. -/
theorem C10_dependency_skip_frame_witness :
    run_stages {} [] 1 [dep_gate_stage2] demo_execution {} =
      run_stages {} [] 1 [] demo_execution {} :=
  C10_dependency_skip_frame.1 {} [] 1 dep_gate_stage2 [] demo_execution {} rfl rfl

/-! ## C5 helper lemmas -/

theorem hasKey_filter_key (d : Dict) (p : String → Bool) (k : String) :
    hasKey (d.filter (fun q => p q.1)) k = (hasKey d k && p k) := by
  induction d with
  | nil => simp [hasKey]
  | cons a rest ih =>
      obtain ⟨ak, av⟩ := a
      by_cases hpa : p ak = true
      · rw [show List.filter (fun q => p q.1) ((ak, av) :: rest) =
              (ak, av) :: List.filter (fun q => p q.1) rest by simp [List.filter, hpa]]
        by_cases hk : ak = k
        · subst hk
          simp [hasKey, hpa]
        · have h1 : (ak == k) = false := by simp [hk]
          simp only [hasKey, List.any_cons] at ih ⊢
          rw [h1, ih]
          simp
      · have hpa' : p ak = false := by simpa using hpa
        rw [show List.filter (fun q => p q.1) ((ak, av) :: rest) =
              List.filter (fun q => p q.1) rest by simp [List.filter, hpa']]
        by_cases hk : ak = k
        · subst hk
          simp only [hasKey, List.any_cons] at ih ⊢
          rw [ih, hpa']
          simp
        · have h1 : (ak == k) = false := by simp [hk]
          simp only [hasKey, List.any_cons] at ih ⊢
          rw [h1, ih]
          simp

theorem dlookup_filter_key (d : Dict) (p : String → Bool) (k : String) (hp : p k = true) :
    dlookup (d.filter (fun q => p q.1)) k = dlookup d k := by
  induction d with
  | nil => simp
  | cons a rest ih =>
      obtain ⟨ak, av⟩ := a
      by_cases hk : ak = k
      · subst hk
        rw [show List.filter (fun q => p q.1) ((ak, av) :: rest) =
              (ak, av) :: List.filter (fun q => p q.1) rest by simp [List.filter, hp]]
        simp [dlookup]
      · have h1 : (ak == k) = false := by simp [hk]
        by_cases hpa : p ak = true
        · rw [show List.filter (fun q => p q.1) ((ak, av) :: rest) =
                (ak, av) :: List.filter (fun q => p q.1) rest by simp [List.filter, hpa]]
          simp only [dlookup, List.find?, h1] at ih ⊢
          exact ih
        · have hpa' : p ak = false := by simpa using hpa
          rw [show List.filter (fun q => p q.1) ((ak, av) :: rest) =
                List.filter (fun q => p q.1) rest by simp [List.filter, hpa']]
          rw [ih]
          simp only [dlookup, List.find?, h1]

theorem hasKey_inject_credentials_of_not_param (sig : MethodSig) (credentials : Option Dict)
    (args : Dict) (k : String) (hk : k ∉ sig.params) :
    hasKey (inject_credentials sig credentials args) k = hasKey args k := by
  rcases credentials with _ | c
  · rfl
  · rw [inject_credentials]
    by_cases hak : k = "api_key"
    · subst hak
      have hc : sig.params.contains "api_key" = false := by simp [hk]
      rw [hc]
      simp only [Bool.and_false, Bool.false_and, Bool.false_eq_true, if_false]
      by_cases hg : (!c.isEmpty && sig.params.contains "base_url" && hasKey c "base_url") = true
      · rw [if_pos hg, hasKey_dinsert]
        simp
      · rw [if_neg hg]
    · by_cases hbk : k = "base_url"
      · subst hbk
        have hc : sig.params.contains "base_url" = false := by simp [hk]
        rw [hc]
        simp only [Bool.and_false, Bool.false_and, Bool.false_eq_true, if_false]
        by_cases hg : (!c.isEmpty && sig.params.contains "api_key" && hasKey c "api_key") = true
        · rw [if_pos hg, hasKey_dinsert]
          simp
        · rw [if_neg hg]
      · have h1 : (k == "api_key") = false := by simp [hak]
        have h2 : (k == "base_url") = false := by simp [hbk]
        by_cases hg1 : (!c.isEmpty && sig.params.contains "api_key" && hasKey c "api_key") = true
        · rw [if_pos hg1]
          by_cases hg2 : (!c.isEmpty && sig.params.contains "base_url" &&
              hasKey c "base_url") = true
          · rw [if_pos hg2, hasKey_dinsert, hasKey_dinsert, h1, h2]
            simp
          · rw [if_neg hg2, hasKey_dinsert, h1]
            simp
        · rw [if_neg hg1]
          by_cases hg2 : (!c.isEmpty && sig.params.contains "base_url" &&
              hasKey c "base_url") = true
          · rw [if_pos hg2, hasKey_dinsert, h2]
            simp
          · rw [if_neg hg2]

theorem hasKey_filter_method_args_le (sig : MethodSig) (d : Dict) (k : String)
    (h : hasKey (filter_method_args sig d) k = true) : hasKey d k = true := by
  rw [filter_method_args] at h
  by_cases hv : sig.hasVarKeyword = true
  · rw [if_pos hv, hasKey_filter_key d (fun s => s != "self") k] at h
    simp only [Bool.and_eq_true] at h
    exact h.1
  · rw [if_neg hv, hasKey_filter_key d (fun s => sig.params.contains s) k] at h
    simp only [Bool.and_eq_true] at h
    exact h.1

/-- Counterexample to claim C5 as stated: with a `**kwargs` method the claim
says "no filtering occurs and all merged arguments are passed through", but
the source removes a key named `self` even then (`if k != 'self'`).  A stage
parameter literally named `self` is present in the merged arguments yet
absent from the dictionary passed to the method (while the other parameter
survives). -/
def kwargs_sig : MethodSig := { params := ["kwargs"], hasVarKeyword := true }

def self_param_stage : StageConfig :=
  { id := "s", type := .connector_method, connector := some "aux", method := some "push",
    parameters := [("self", .int 1), ("payload", .str "p")] }

theorem C5_kwargs_self_counterexample :
    hasKey (merged_method_args self_param_stage []) "self" = true ∧
    hasKey (connector_method_args kwargs_sig self_param_stage [] none) "self" = false ∧
    hasKey (connector_method_args kwargs_sig self_param_stage [] none) "payload" = true :=
  ⟨rfl, rfl, rfl⟩

/-- Claim C5, amended.  (i) Without a `**kwargs` parameter, every key of the
argument dictionary passed to the method names a declared parameter of the
signature.  (ii) With a `**kwargs` parameter the only filtering is the
removal of a key named `self`; every other merged argument passes through
unchanged.  (iii) Credential injection never smuggles in `api_key`/`base_url`
keys the signature does not declare: if such a key reaches the method, it
was already in the merge of stage parameters and input variables. -/
theorem C5_argument_filtering_amended (sig : MethodSig) (stage : StageConfig) (vars : Dict)
    (credentials : Option Dict) :
    (sig.hasVarKeyword = false →
      ∀ k, hasKey (connector_method_args sig stage vars credentials) k = true →
        k ∈ sig.params) ∧
    (sig.hasVarKeyword = true →
      hasKey (connector_method_args sig stage vars credentials) "self" = false ∧
      ∀ k, k ≠ "self" →
        dlookup (connector_method_args sig stage vars credentials) k =
          dlookup (inject_credentials sig credentials (merged_method_args stage vars)) k) ∧
    (∀ k, (k = "api_key" ∨ k = "base_url") → k ∉ sig.params →
      hasKey (connector_method_args sig stage vars credentials) k = true →
      hasKey (merged_method_args stage vars) k = true) := by
  refine ⟨?_, ?_, ?_⟩
  · intro hv k hk
    rw [connector_method_args, filter_method_args, if_neg (by simp [hv]),
      hasKey_filter_key (inject_credentials sig credentials (merged_method_args stage vars))
        (fun s => sig.params.contains s) k] at hk
    simp only [Bool.and_eq_true] at hk
    simpa using hk.2
  · intro hv
    constructor
    · rw [connector_method_args, filter_method_args, if_pos hv,
        hasKey_filter_key (inject_credentials sig credentials (merged_method_args stage vars))
          (fun s => s != "self") "self"]
      simp
    · intro k hkne
      rw [connector_method_args, filter_method_args, if_pos hv,
        dlookup_filter_key (inject_credentials sig credentials (merged_method_args stage vars))
          (fun s => s != "self") k (by simp [hkne])]
  · intro k _ hnot hk
    have h1 := hasKey_filter_method_args_le sig _ k (by rw [← connector_method_args]; exact hk)
    rwa [hasKey_inject_credentials_of_not_param sig credentials _ k hnot] at h1

def filter_demo_sig : MethodSig := { params := ["sku_list"], hasVarKeyword := false }

def filter_demo_stage : StageConfig :=
  { id := "w", type := .connector_method, connector := some "target", method := some "write",
    parameters := [("sku_list", .list []), ("extra", .int 7)] }

/-- Witness for C5: a concrete non-kwargs dispatch; the surviving key
`sku_list` is indeed a declared parameter. -/
theorem C5_argument_filtering_amended_witness :
    filter_demo_sig.hasVarKeyword = false ∧ "sku_list" ∈ filter_demo_sig.params :=
  ⟨rfl,
   (C5_argument_filtering_amended filter_demo_sig filter_demo_stage []
       (some [("api_key", .str "k")])).1 rfl "sku_list" (by decide)⟩

/-! ## C6: `map_item_list` -/

/-- The identity scalar transform, a concrete always-succeeding instance of
the abstracted `apply_transform` (it is also `apply_transform`'s actual
behaviour when no transform name is given). -/
def tr_id : Value → Option String → Except String Value := fun v _ => .ok v

/-- A scalar transform that raises.  `apply_transform` behaves this way on,
e.g., `transform = "round"` and value `"1e400"`: `float("1e400")` parses to
infinity and `round` raises `OverflowError`, which the `except` clause at
`transforms.py:62` — `(ValueError, TypeError, ZeroDivisionError)` — does not
catch, so the exception escapes into `map_fields`.  (Float arithmetic itself
is outside the model; this function stands for `apply_transform` at such an
input.) -/
def tr_overflow : Value → Option String → Except String Value :=
  fun _ _ => .error "OverflowError: cannot convert float infinity to integer"

/-- Counterexample to claim C6 as stated, in two parts.  (i) The item
`[("f", null)]` *contains* the source field `"f"` (the key is present,
stored with Python `None`), so per the claim the output item should carry
the target field `"g"`; but `map_fields` reads the value with `.get`, sees
`None`, and — the mapping being required — skips the field, producing an
empty output item.  (ii) With a scalar transform that raises (as
`apply_transform` does on `round` of `"1e400"`, its `OverflowError` escaping
the catch tuple at `transforms.py:62`), `map_item_list` raises instead of
returning a same-length list. -/
theorem C6_map_item_list_counterexample :
    (hasKey [("f", Value.null)] "f" = true ∧
      map_item_list tr_id [[("f", Value.null)]]
        [{ source_field := some "f", target_field := some "g" }] = .ok [[]]) ∧
    map_item_list tr_overflow [[("f", .str "1e400")]]
      [{ source_field := some "f", target_field := some "g", transform := some "round" }] =
      .error "OverflowError: cannot convert float infinity to integer" :=
  ⟨⟨rfl, rfl⟩, rfl⟩

/-- Claim C6, amended.  Provided every scalar-transform application actually
performed succeeds (the source's catch tuple at `transforms.py:62` omits
`OverflowError`, which `round`/`int`/`float` raise on oversized values, so a
raising application aborts the mapping with an exception instead),
`map_item_list` returns a list of the same length as its input, mapping
items index-for-index, and each output item contains exactly the target
fields of mappings that name a non-empty source and target field and whose
source value in that item is non-null — Python's `dict.get` conflates a key
stored with `None` with an absent key — or whose mapping is not required. -/
theorem C6_map_item_list_amended (tr : Value → Option String → Except String Value)
    (items : List Dict) (fms : List FieldMapping)
    (h : ∀ it ∈ items, ∀ m ∈ fms, ∀ sf, m.source_field = some sf →
      transform_applies it m → ∃ w, tr (pyget it sf) m.transform = Except.ok w) :
    ∃ out, map_item_list tr items fms = Except.ok out ∧
      out.length = items.length ∧
      ∀ i, i < items.length → ∀ k,
        (hasKey (out.getD i []) k = true ↔ ∃ m ∈ fms, emitsField (items.getD i []) m k) := by
  induction items with
  | nil => exact ⟨[], rfl, rfl, fun i hi => absurd hi (by simp)⟩
  | cons item rest ih =>
      obtain ⟨d, hd, hkeys⟩ :=
        map_fields_ok tr item fms (h item (List.mem_cons_self item rest)) []
      obtain ⟨outR, hR, hlen, hidx⟩ :=
        ih (fun it' hit' => h it' (List.mem_cons_of_mem _ hit'))
      refine ⟨d :: outR, ?_, by simp [hlen], ?_⟩
      · rw [map_item_list, hd, hR]
        rfl
      · intro i hi k
        cases i with
        | zero =>
            simpa [hasKey_nil] using hkeys k
        | succ j =>
            have hj : j < rest.length := by simpa using hi
            simpa using hidx j hj k

def c6_demo_items : List Dict := [[("a", .str "x")], [("other", .int 5)]]

def c6_demo_mappings : List FieldMapping :=
  [{ source_field := some "a", target_field := some "b", required := false }]

/-- Witness for C6: with the (always-succeeding) identity transform on a
concrete two-item list, the mapping succeeds, the output length matches, and
the first output item carries `"b"`. -/
theorem C6_map_item_list_amended_witness :
    ∃ out, map_item_list tr_id c6_demo_items c6_demo_mappings = Except.ok out ∧
      out.length = 2 ∧ hasKey (out.getD 0 []) "b" = true := by
  obtain ⟨out, h1, h2, h3⟩ :=
    C6_map_item_list_amended tr_id c6_demo_items c6_demo_mappings
      (by
        intro it hit m hm sf hsf happ
        exact ⟨pyget it sf, rfl⟩)
  refine ⟨out, h1, by rw [h2]; rfl, ?_⟩
  exact (h3 0 (by decide) "b").mpr
    ⟨{ source_field := some "a", target_field := some "b", required := false },
     by decide,
     by refine ⟨rfl, by decide, "a", rfl, by decide, Or.inl rfl⟩⟩

/-! ## C7: transform stages on mismatched input shapes -/

/-- Meaning of "input shape does not match the transform type": the list/dict-shaped
transform types applied to a value of neither shape (for `filter_field` and
`slice`, any non-list — their dict handling is the shared fall-through);
`identity` imposes no shape at all. -/
def shape_mismatch (t : String) (v : Value) : Prop :=
  t = "identity" ∨
  (t = "extract_field" ∧ v.isList = false ∧ v.isDict = false) ∨
  (t = "filter_field" ∧ v.isList = false) ∨
  (t = "add_field" ∧ v.isList = false ∧ v.isDict = false) ∨
  (t = "slice" ∧ v.isList = false)

def c7_stage : StageConfig :=
  { id := "t", type := .transform, input_variables := ["xs"],
    parameters := [("transform_type", .str "filter_field"), ("field", .str "f"),
                   ("value", .int 1)] }

def c7_ctx : Context := { vars := [("xs", .list [.int 1, .int 2])] }

/-- Counterexample to claim C7 as stated: `filter_field` applied to a list of
non-objects — an input whose shape does not match the transform type ("keep
only items where a field equals a value" presumes items with fields) — does
not return the unmodified input; `item.get` raises `AttributeError` on the
first integer item, so the stage raises instead of degrading. -/
theorem C7_filter_field_raises_counterexample :
    execute_transform c7_stage c7_ctx =
      .error "AttributeError: object has no attribute 'get'" ∧
    (stage_input c7_stage c7_ctx).isList = true :=
  ⟨rfl, rfl⟩

/-- Claim C7, amended.  For the five transform types, an input that is
neither a list nor an object (and any input at all for `identity`) is
returned unmodified and no exception is raised; what the claim does not
survive is a *list* input with non-object items, where `extract_field`
projects only object items and `filter_field` raises (see the
counterexample). -/
theorem C7_wrong_shape_amended (stage : StageConfig) (ctx : Context) (t : String)
    (ht : dgetD stage.parameters "transform_type" (.str "identity") = .str t)
    (h : shape_mismatch t (stage_input stage ctx)) :
    execute_transform stage ctx = .ok (stage_input stage ctx) := by
  simp only [execute_transform, ht]
  rcases h with rfl | ⟨rfl, h2, h3⟩ | ⟨rfl, h2⟩ | ⟨rfl, h2, h3⟩ | ⟨rfl, h2⟩
  · rw [if_pos rfl]
  · rw [if_neg (by decide), if_pos rfl]
    rcases hv : stage_input stage ctx with _ | n | s | xs | d <;>
      simp_all [Value.isList, Value.isDict]
  · rw [if_neg (by decide), if_neg (by decide), if_pos rfl]
    rcases hv : stage_input stage ctx with _ | n | s | xs | d <;>
      simp_all [Value.isList]
  · rw [if_neg (by decide), if_neg (by decide), if_neg (by decide), if_pos rfl]
    rcases hv : stage_input stage ctx with _ | n | s | xs | d <;>
      simp_all [Value.isList, Value.isDict]
  · rw [if_neg (by decide), if_neg (by decide), if_neg (by decide), if_neg (by decide),
      if_pos rfl]
    rcases hv : stage_input stage ctx with _ | n | s | xs | d <;>
      simp_all [Value.isList]

def c7_slice_stage : StageConfig :=
  { id := "sl", type := .transform, input_variables := ["n"],
    parameters := [("transform_type", .str "slice")] }

def c7_slice_ctx : Context := { vars := [("n", .int 5)] }

/-- Witness for C7: a `slice` stage fed an integer returns it untouched. -/
theorem C7_wrong_shape_amended_witness :
    execute_transform c7_slice_stage c7_slice_ctx = .ok (.int 5) :=
  C7_wrong_shape_amended c7_slice_stage c7_slice_ctx "slice" rfl
    (Or.inr (Or.inr (Or.inr (Or.inr ⟨rfl, rfl⟩))))

/-! ## C8: the `filter` stage -/

theorem filterME_eq_filter (p : Value → Except String Bool) (q : Value → Bool)
    (xs : List Value) (h : ∀ x ∈ xs, p x = .ok (q x)) :
    filterME p xs = .ok (xs.filter q) := by
  induction xs with
  | nil => rfl
  | cons x rest ih =>
      rw [filterME, h x (List.mem_cons_self x rest),
        ih (fun y hy => h y (List.mem_cons_of_mem x hy))]
      cases hq : q x <;> rw [List.filter_cons, hq] <;> rfl

/-- The field value `item[f]` of an object item (null when the key is
absent); only applied under the hypothesis that the item is an object. -/
def item_field (it : Value) (f : String) : Value :=
  match it with
  | .dict d => pyget d f
  | _ => .null

def c8_stage : StageConfig :=
  { id := "f", type := .filter, input_variables := ["items"],
    parameters := [("field", .str "sku"), ("value_from_variable", .str "allowed")] }

def c8_ok_ctx : Context :=
  { vars := [
      ("items", .list [
        .dict [("sku", .str "A")], .dict [("sku", .str "C")], .dict [("sku", .str "B")]]),
      ("allowed", .list [.str "A", .str "B"])] }

def c8_bad_ctx : Context :=
  { vars := [
      ("items", .list [.dict [("sku", .str "A")]]),
      ("allowed", .list [.list []])] }

/-- Counterexample to claim C8 as stated: `value_from_variable` bound to a
list of values one of which is itself a list — `set(filter_values)` raises
`TypeError` (unhashable), so the stage fails instead of returning the items
whose field value is a member (which would be the empty list here). -/
theorem C8_unhashable_counterexample :
    execute_filter c8_stage c8_bad_ctx = .error "TypeError: unhashable type" ∧
    execute_filter c8_stage c8_bad_ctx ≠ .ok (.list []) :=
  ⟨rfl, fun h => Except.noConfusion
    (show Except.error "TypeError: unhashable type" = Except.ok (Value.list []) from h)⟩

/-- Claim C8, amended.  (i) When the parameters name a non-empty field and a
non-empty `value_from_variable` bound to a list of *hashable* values in the
context, and every input item is an object with a hashable field value, the
stage returns exactly the items whose field value is a member of the value
list, preserving relative order (`List.filter`); unhashable values or
non-object items instead raise, failing the stage.  (ii) A non-list input is
always returned unchanged. -/
theorem C8_filter_membership_amended :
    (∀ (stage : StageConfig) (ctx : Context) (f vn : String) (vals : List Value)
       (items : List Value),
       pyget stage.parameters "field" = .str f → f ≠ "" →
       pyget stage.parameters "value_from_variable" = .str vn → vn ≠ "" →
       pyget ctx.vars vn = .list vals →
       vals.all hashableB = true →
       stage_input stage ctx = .list items →
       (∀ it ∈ items, it.isDict = true ∧ hashableB (item_field it f) = true) →
       execute_filter stage ctx =
         .ok (.list (items.filter (fun it => vals.any (fun w => w == item_field it f))))) ∧
    (∀ (stage : StageConfig) (ctx : Context),
       (stage_input stage ctx).isList = false →
       execute_filter stage ctx = .ok (stage_input stage ctx)) := by
  constructor
  · intro stage ctx f vn vals items hf hfne hv hvne hvals hhash hin hitems
    have hq : ∀ it ∈ items, filter_member_check (Value.str f) vals it =
        Except.ok (vals.any (fun w => w == item_field it f)) := by
      intro it hit
      obtain ⟨hd, hh⟩ := hitems it hit
      rcases it with _ | n | s | xs | d
      · simp [Value.isDict] at hd
      · simp [Value.isDict] at hd
      · simp [Value.isDict] at hd
      · simp [Value.isDict] at hd
      · simp only [item_field] at hh
        have hrw : filter_member_check (Value.str f) vals (Value.dict d) =
            if hashableB (pyget d f) then
              Except.ok (vals.any (fun w => w == pyget d f))
            else Except.error "TypeError: unhashable type" := rfl
        rw [hrw, hh]
        simp [item_field]
    have hvv : var_get_vkey ctx (Value.str vn) = Except.ok (Value.list vals) := by
      simp [var_get_vkey, hvals]
    simp only [execute_filter, hin, hf, hv]
    rw [if_pos (by simp [pyTruthy, hfne, hvne]), hvv]
    show (if vals.all hashableB then
        (filterME (filter_member_check (Value.str f) vals) items).map Value.list
      else Except.error "TypeError: unhashable type") =
      Except.ok (Value.list (items.filter (fun it => vals.any (fun w => w == item_field it f))))
    rw [if_pos hhash,
      filterME_eq_filter (filter_member_check (Value.str f) vals)
        (fun it => vals.any (fun w => w == item_field it f)) items hq]
    rfl
  · intro stage ctx hnl
    rcases hv : stage_input stage ctx with _ | n | s | xs | d <;>
      simp_all [execute_filter, Value.isList]

/-- Witness for C8: the spec's own example — items with skus A, C, B and the
dynamic value set A, B — yields exactly the A and B items in order. -/
theorem C8_filter_membership_amended_witness :
    execute_filter c8_stage c8_ok_ctx =
      .ok (.list [.dict [("sku", .str "A")], .dict [("sku", .str "B")]]) :=
  C8_filter_membership_amended.1 c8_stage c8_ok_ctx "sku" "allowed"
    [.str "A", .str "B"]
    [.dict [("sku", .str "A")], .dict [("sku", .str "C")], .dict [("sku", .str "B")]]
    rfl (by decide) rfl (by decide) rfl rfl rfl (by decide)

/-! ## C9: the `log` stage -/

/-- Version of `log_subst` without the redundant `in`-guards: `str.replace` on an absent
pattern is the identity, so the guards only skip no-op replaces. -/
def log_subst_unguarded (msg : String) (n : String) (v : Value) : String :=
  let msg1 := strReplace msg (var_placeholder n) (pyStr v)
  match v with
  | .list xs => strReplace msg1 (len_placeholder_of n) (toString xs.length)
  | _ => strReplace msg1 (len_placeholder_of n) "N/A"

theorem log_subst_eq_unguarded (msg n : String) (v : Value) :
    log_subst msg n v = log_subst_unguarded msg n v := by
  simp only [log_subst, log_subst_unguarded]
  by_cases h1 : strContains msg (var_placeholder n) = true
  · rw [if_pos h1]
    by_cases h2 : strContains (strReplace msg (var_placeholder n) (pyStr v))
        (len_placeholder_of n) = true
    · rw [if_pos h2]
    · have h2' : strContains (strReplace msg (var_placeholder n) (pyStr v))
          (len_placeholder_of n) = false := by simpa using h2
      rw [if_neg h2]
      cases v <;> simp [strReplace_of_not_contains _ _ _ h2']
  · have h1' : strContains msg (var_placeholder n) = false := by simpa using h1
    rw [if_neg h1, strReplace_of_not_contains msg (var_placeholder n) (pyStr v) h1']
    by_cases h2 : strContains msg (len_placeholder_of n) = true
    · rw [if_pos h2]
    · have h2' : strContains msg (len_placeholder_of n) = false := by simpa using h2
      rw [if_neg h2]
      cases v <;> simp [strReplace_of_not_contains _ _ _ h2']

def lbrace : String := String.singleton (Char.ofNat 123)

def rbrace : String := String.singleton (Char.ofNat 125)

def c9_chain_stage : StageConfig :=
  { id := "lg", type := .log,
    parameters := [("message", .str (lbrace ++ "a" ++ rbrace))] }

def c9_chain_ctx : Context :=
  { vars := [("a", .str (lbrace ++ "b" ++ rbrace)), ("b", .str "X")] }

/-- Counterexample to claim C9 as stated: with message `\x7ba\x7d` and
variables `a = "\x7bb\x7d"`, `b = "X"` (in that insertion order), the
claimed reading — the message with each occurrence of a placeholder replaced
by that variable's string value — yields `"\x7bb\x7d"`; the stage instead
returns `"X"`, because substitution is sequential per variable and the text
substituted for `a` is itself rescanned for `b`'s placeholder. -/
theorem C9_chained_substitution_counterexample :
    execute_log c9_chain_stage c9_chain_ctx = .ok (.str "X") ∧
    "X" ≠ lbrace ++ "b" ++ rbrace :=
  ⟨rfl, by decide⟩

/-- Claim C9, amended.  The returned string is `parameters.message` processed
sequentially, one context variable at a time in insertion order, each step
replacing every occurrence of `\x7bvarName\x7d` by the variable's string
value and then every occurrence of `\x7blen(varName)\x7d` by the decimal
list length (`"N/A"` for a non-list); substituted text is rescanned by later
variables' steps, which is observable only when a substituted value itself
contains a later placeholder.  (The source guards each replace with an `in`
test; the guards are no-ops, as the unguarded form is equal.) -/
theorem C9_log_substitution_amended (stage : StageConfig) (ctx : Context) (m : String)
    (hm : dgetD stage.parameters "message" (.str "") = .str m) :
    execute_log stage ctx =
      .ok (.str (ctx.vars.foldl (fun msg p => log_subst_unguarded msg p.1 p.2) m)) := by
  have key : ∀ (l : List (String × Value)) (m0 : String),
      l.foldl (fun msg p => log_subst msg p.1 p.2) m0 =
        l.foldl (fun msg p => log_subst_unguarded msg p.1 p.2) m0 := by
    intro l
    induction l with
    | nil => intro m0; rfl
    | cons p rest ih =>
        intro m0
        rw [List.foldl_cons, List.foldl_cons, log_subst_eq_unguarded, ih]
  simp only [execute_log, hm]
  rw [key]

def c9_example_stage : StageConfig :=
  { id := "lg2", type := .log,
    parameters := [("message", .str ("Found " ++ lbrace ++ "len(x)" ++ rbrace ++ " items"))] }

def c9_example_ctx : Context :=
  { vars := [("x", .list [.int 1, .int 2, .int 3])] }

/-- Witness for C9: the spec's example — message `Found \x7blen(x)\x7d items`
with `x = [1, 2, 3]` — produces `"Found 3 items"`. -/
theorem C9_log_substitution_amended_witness :
    execute_log c9_example_stage c9_example_ctx = .ok (.str "Found 3 items") :=
  C9_log_substitution_amended c9_example_stage c9_example_ctx
    ("Found " ++ lbrace ++ "len(x)" ++ rbrace ++ " items") rfl
